import Mathlib

/-!
Verification of the WLAN waveform / demodulation setup tool.

Shallow embedding of the core logic of the repository:

* the OPC completion-synchronized executor
  (`RS_FSx_WLAN_AX_BE.py: write_command`, legacy
  `RS_SMx_WLAN_v2.py: opc_check`),
* the standard translator (`WLAN_Standards_Translator.py`),
* the receive-side capture-time planner
  (`RS_FSx_WLAN_AX_BE.py: setup_WLAN_app`),
* the transmit-side timing planner (`RS_SMx_WLAN_v2.py: create_waveform`),
* the GUI session close paths (`RS_FSW_WLAN_GUI.py: close`,
  `smw_fsw_gui.py: on_closing`).

Real arithmetic of the Python source (floats) is embedded as exact
rational arithmetic over `ℚ`; machine integers as `ℤ`; fallible code as
`Except`.  Device replies consumed by the code are passed in explicitly,
so every embedded operation is a pure function of its inputs and of the
replies it reads.
-/

/- ### Completion-synchronized executor

`RS_FSx_WLAN_AX_BE.py`, lines 74-89 (`write_command`), and
`legacy versions/RS_SMx_WLAN_v2.py`, lines 98-112 (`opc_check`):
the command is sent with an `*OPC` suffix, then `*ESR?` is polled; bit 0
of the reply signals completion.  `timeout = time.time() + 10`; after a
failed poll the loop raises if `time.time() > timeout`, otherwise sleeps
0.2 s and polls again.  Time is embedded in milliseconds under the
idealized clock in which poll `n` happens `200 * n` ms after the write;
`esr n` is the device reply to the n-th `*ESR?` poll. -/

/-- Errors of the executor.  `timeout cmd` embeds
`TimeoutError(f"OPC timeout for write command ...")`, which carries the
original command. -/
inductive OpcError where
  | timeout (cmd : String)
deriving DecidableEq

/-- The polling loop of `write_command` / `opc_check`, started at poll
index `n`: read `*ESR?`; if bit 0 is set, succeed (returning the index of
the successful poll); otherwise raise the timeout once the clock
(`200 * n` ms) has passed the 10000 ms deadline, else sleep and poll
again. -/
def opcPollFrom (esr : ℕ → ℕ) (cmd : String) (n : ℕ) : Except OpcError ℕ :=
  if esr n &&& 1 = 1 then .ok n
  else if 10000 < 200 * n then .error (.timeout cmd)
  else opcPollFrom esr cmd (n + 1)
termination_by 51 - n
decreasing_by omega

/-- `RS_FSx_WLAN_AX_BE.write_command`: send `f"{command};*OPC"`, then run
the `*ESR?` polling loop from poll 0. -/
def write_command (esr : ℕ → ℕ) (cmd : String) : Except OpcError ℕ :=
  opcPollFrom esr cmd 0

/-- Legacy `RS_SMx_WLAN_v2.opc_check`: writes `*ESE 1`, `*SRE 32`,
`f"{cmd};*OPC"`, then runs the same `*ESR?` polling loop from poll 0. -/
def opc_check (esr : ℕ → ℕ) (cmd : String) : Except OpcError ℕ :=
  opcPollFrom esr cmd 0

/- ### Standard translator (`WLAN_Standards_Translator.py`) -/

/-- ASCII lowercase-to-uppercase on a character, the relevant fragment of
Python `str.upper` (all identifiers handled by the translator are
ASCII). -/
def upChar (c : Char) : Char :=
  if 97 ≤ c.toNat ∧ c.toNat ≤ 122 then Char.ofNat (c.toNat - 32) else c

/-- Python `s.upper()` on ASCII strings. -/
def pyUpper (s : String) : String := ⟨s.data.map upChar⟩

/-- `WLAN_Standards_Translator.STANDARD_MAP`: key ↦ (FSW code, human
readable description, FSW configuration directive). -/
def STANDARD_MAP : List (String × ℤ × String × String) :=
  [("WAX", (10, "IEEE 802.11ax", ":CONF:STAN 10")),
   ("WBE", (11, "IEEE 802.11be", ":CONF:STAN 11")),
   ("A", (0, "IEEE 802.11a", ":CONF:STAN 0")),
   ("B", (1, "IEEE 802.11b", ":CONF:STAN 1")),
   ("J10", (2, "IEEE 802.11j (10 MHz)", ":CONF:STAN 2")),
   ("J20", (3, "IEEE 802.11j (20 MHz)", ":CONF:STAN 3")),
   ("G", (4, "IEEE 802.11g", ":CONF:STAN 4")),
   ("N", (6, "IEEE 802.11n", ":CONF:STAN 6")),
   ("N_MIMO", (7, "IEEE 802.11n (MIMO)", ":CONF:STAN 7")),
   ("AC", (8, "IEEE 802.11ac", ":CONF:STAN 8")),
   ("P", (9, "IEEE 802.11p", ":CONF:STAN 9"))]

/-- `WLAN_Standards_Translator.to_fsw_command`: look up
`smw_standard.upper()` in the map; on a miss, warn and return the default
directive `":CONF:STAN 11"` (never fails). -/
def to_fsw_command (smw_standard : String) : String :=
  match List.lookup (pyUpper smw_standard) STANDARD_MAP with
  | none => ":CONF:STAN 11"
  | some entry => entry.2.2

/-- `WLAN_Standards_Translator.to_description`: same lookup; default
description on a miss. -/
def to_description (smw_standard : String) : String :=
  match List.lookup (pyUpper smw_standard) STANDARD_MAP with
  | none => "IEEE 802.11be (default)"
  | some entry => entry.2.1

/- ### Receive-side planner (`RS_FSx_WLAN_AX_BE.py: setup_WLAN_app`,
lines 150-164) -/

/-- Capture-time computation of `setup_WLAN_app`: the SMW reports frame
duration and idle time in milliseconds; they are divided by 1000,
`capture_time_s = 4 * (frame_duration_s + idle_time_s)`, and if the
result exceeds `max_capture_time_s = 1.0` a warning is logged and the
value is capped at 1.0.  Returns the applied capture time (seconds) and
whether the capping warning fired. -/
def setup_WLAN_capture_time (frame_duration_ms idle_time_ms : ℚ) : ℚ × Bool :=
  let frame_duration_s := frame_duration_ms / 1000
  let idle_time_s := idle_time_ms / 1000
  let capture_time_s := 4 * (frame_duration_s + idle_time_s)
  let max_capture_time_s : ℚ := 1
  if capture_time_s > max_capture_time_s then (max_capture_time_s, true)
  else (capture_time_s, false)

/- ### Transmit-side planner
(`legacy versions/RS_SMx_WLAN_v2.py: create_waveform`, lines 122-208) -/

/-- Python `round(x, 0)` (banker's rounding, half to even), as used at
line 166 of `RS_SMx_WLAN_v2.py`, on the exact rational embedding of the
float value. -/
def pythonRound (q : ℚ) : ℤ :=
  if q - ⌊q⌋ < 1/2 then ⌊q⌋
  else if 1/2 < q - ⌊q⌋ then ⌊q⌋ + 1
  else if ⌊q⌋ % 2 = 0 then ⌊q⌋ else ⌊q⌋ + 1

/-- Line 157: `header_duration = 43.2e-6` (typical EHT preamble,
seconds). -/
def header_duration : ℚ := 432 / 10 ^ 7

/-- Line 159: `{"GD08": 0.8e-6, "GD16": 1.6e-6, "GD32": 3.2e-6}.get(gi,
0.8e-6)` — the guard-interval lookup, defaulting to 0.8 µs on any
unknown reply. -/
def gi_value (gi : String) : ℚ :=
  if gi = "GD08" then 8 / 10 ^ 7
  else if gi = "GD16" then 16 / 10 ^ 7
  else if gi = "GD32" then 32 / 10 ^ 7
  else 8 / 10 ^ 7

/-- Line 160: `symbol_duration = 12.8e-6 + gi_value`. -/
def symbol_duration_calc (gi : String) : ℚ := 128 / 10 ^ 7 + gi_value gi

/-- Line 166: `no_of_symbols_required = round((burst_length -
header_duration) / symbol_duration, 0)`. -/
def required_symbols (burst_length : ℚ) (gi : String) : ℤ :=
  pythonRound ((burst_length - header_duration) / symbol_duration_calc gi)

/-- Line 188: `idle_time = burst_length * (1 / duty_cycle) -
burst_length`. -/
def idle_time_calc (burst_length duty_cycle : ℚ) : ℚ :=
  burst_length * (1 / duty_cycle) - burst_length

/-- Lines 174-185: `no_of_mpdus_required, remainder =
divmod(no_of_bytes_required, max_bytes_per_mpdu)`,
`no_of_mpdus_required = int(no_of_mpdus_required + 1)`, then each MPDU
except the last gets `max_bytes_per_mpdu` bytes and the last gets
`remainder`.  Python `divmod` is floor division, i.e. `Int.fdiv` /
`Int.fmod`.  Returns the list of per-MPDU byte lengths in the order the
`DATA:LENGth` directives are written. -/
def mpdu_partition (no_of_bytes_required max_bytes_per_mpdu : ℤ) : List ℤ :=
  let q := no_of_bytes_required.fdiv max_bytes_per_mpdu
  let r := no_of_bytes_required.fmod max_bytes_per_mpdu
  let count := q + 1
  (List.range count.toNat).map
    (fun i => if i = count.toNat - 1 then r else max_bytes_per_mpdu)

/-- A character is an ASCII digit. -/
def isDigitChar (c : Char) : Bool := 48 ≤ c.toNat && c.toNat ≤ 57

/-- Numeric value of a digit string (most significant first). -/
def digitsToNat (l : List Char) : ℕ :=
  l.foldl (fun acc c => 10 * acc + (c.toNat - 48)) 0

/-- Python `int(s)` on an optionally signed decimal string (surrounding
whitespace and underscore separators, which `int` also tolerates, are
not modeled; no claim depends on them). -/
def pyInt (s : List Char) : Option ℤ :=
  match s with
  | '-' :: rest =>
    if rest ≠ [] ∧ rest.all isDigitChar then some (-(digitsToNat rest : ℤ)) else none
  | '+' :: rest =>
    if rest ≠ [] ∧ rest.all isDigitChar then some (digitsToNat rest : ℤ) else none
  | l => if l ≠ [] ∧ l.all isDigitChar then some (digitsToNat l : ℤ) else none

/-- Remove the first occurrence of `pat` from a character list (Python
`s.replace(pat, "", 1)`). -/
def removeFirst (pat : List Char) : List Char → List Char
  | [] => []
  | c :: rest =>
    if pat.isPrefixOf (c :: rest) then (c :: rest).drop pat.length
    else c :: removeFirst pat rest

/-- Line 151: `mcs_index = int(mcs.replace("MCS", "", 1))`. -/
def parse_mcs_index (mcs : String) : Option ℤ :=
  pyInt (removeFirst "MCS".data mcs.data)

/-- The `Bandwidth` enum names accepted at line 135.

Modelled from the spec: the `IEEE80211be` module (imported at line 6 of
`RS_SMx_WLAN_v2.py`) is not under `src/`; per the module docstring
("Configures bandwidth (BW20, BW40, BW80, BW160, BW320)") and the GUI
bandwidth selector in `smw_fsw_gui.py`, the enum members are BW20, BW40,
BW80, BW160, BW320, each with its own name as value (the value is spliced
into `EHT{bw_value[2:]}` at line 147). -/
def valid_bandwidths : List String := ["BW20", "BW40", "BW80", "BW160", "BW320"]

/-- The valid 802.11be MCS indices checked at line 152.

Modelled from the spec: `IEEE80211be.MCS_DATA` is not under `src/`; per
the module docstring ("MCS 0-13") and the GUI MCS selector in
`smw_fsw_gui.py` (`range(14)` for WBE), its keys are 0..13. -/
def mcs_data_keys : List ℤ :=
  [0, 1, 2, 3, 4, 5, 6, 7, 8, 9, 10, 11, 12, 13]

/-- SCPI configuration directives written by `create_waveform` (each is
sent through the OPC-synchronized executor or `write_command`); the
constructors carry the interpolated arguments of the corresponding
f-strings. -/
inductive Cmd where
  | wlnnState (enabled : Bool)         -- SOURce1:BB:WLNN:STATe {0|1}
  | wlnnPreset                         -- SOURce1:BB:WLNN:PRESet
  | bwidth (bw_value : String)         -- SOURce1:BB:WLNN:BWidth {bw_value}
  | fblockStandard (s : String)        -- SOURce1:BB:WLNN:FBLOck1:STANdard {s}
  | tmode (m : String)                 -- SOURce1:BB:WLNN:FBLOck1:TMOde {m}
  | mcsSet (m : String)                -- SOURce1:BB:WLNN:FBLOck1:USER1:MCS {m}
  | mpduCount (n : ℤ)                  -- ...:MPDU1:COUNt {n}
  | mpduSource (i : ℕ)                 -- ...:MPDU{i}:DATA:SOURce PN23
  | mpduLength (i : ℕ) (len : ℤ)       -- ...:MPDU{i}:DATA:LENGth {len}
  | itime (t : ℚ)                      -- SOURce1:BB:WLNN:FBLock1:ITIMe {t}
deriving DecidableEq

/-- A directive that configures a protocol data unit (MPDU count, data
source or data length). -/
def Cmd.isDataUnitDirective : Cmd → Bool
  | .mpduCount _ => true
  | .mpduSource _ => true
  | .mpduLength _ _ => true
  | _ => false

/-- Device replies read by `create_waveform`: the guard-interval query
(line 158), the bits-per-symbol query (line 164) and the maximum
MPDU byte length query (line 173). -/
structure DevReplies where
  gi : String
  bits_per_symbol : ℤ
  max_bytes_per_mpdu : ℤ
deriving DecidableEq

/-- The quantities `create_waveform` derives on its success path. -/
structure WvPlan where
  symbol_duration : ℚ
  no_of_symbols_required : ℤ
  no_of_bytes_required : ℤ
  no_of_mpdus_required : ℤ
  remainder : ℤ
  mpdu_lengths : List ℤ
  idle_time : ℚ
deriving DecidableEq

/-- The exceptions `create_waveform` can raise internally, one
constructor per raise site: the duty-cycle `ValueError` (line 127), the
bandwidth `ValueError` (line 138), the standard `ValueError` (line 143),
the MCS `ValueError`s (lines 151-153, covering both a failed `int()`
parse and an index outside `MCS_DATA`), and the byte-capacity
`AssertionError` (line 169). -/
inductive WvErr where
  | invalidDutyCycle
  | invalidBandwidth
  | invalidStandard
  | invalidMcs
  | capacityError
deriving DecidableEq

/-- Lines 179-185: the MPDU directives: `MPDU1:COUNt`, then for each
`mpdu in range(no_of_mpdus_required)` a `DATA:SOURce PN23` write and a
`DATA:LENGth` write (`remainder` for the last MPDU, `max_bytes_per_mpdu`
otherwise). -/
def mpdu_cmds (count remainder max_bytes_per_mpdu : ℤ) : List Cmd :=
  Cmd.mpduCount count ::
    (List.range count.toNat).flatMap (fun mpdu =>
      [Cmd.mpduSource (mpdu + 1),
       Cmd.mpduLength (mpdu + 1)
         (if mpdu = count.toNat - 1 then remainder else max_bytes_per_mpdu)])

/-- `RS_SMX.create_waveform`, lines 122-208, inside the `try` block: the
full control flow, in source order, as a pure function of the caller
arguments and the device replies.  Returns the list of configuration
directives written before the outcome, and the outcome itself (the
derived plan, or the exception raised).  Directives after a raise are
never written. -/
def create_waveform_run (standard bw mcs : String)
    (burst_length duty_cycle : ℚ) (dev : DevReplies) :
    List Cmd × Except WvErr WvPlan :=
  if ¬(0 < duty_cycle ∧ duty_cycle ≤ 1) then
    ([], .error .invalidDutyCycle)
  else
    -- lines 130-131
    let t0 : List Cmd := [.wlnnState false, .wlnnPreset]
    -- lines 134-139
    if ¬ pyUpper bw ∈ valid_bandwidths then (t0, .error .invalidBandwidth)
    else
      let bw_value := pyUpper bw
      let t1 := t0 ++ [.bwidth bw_value]
      -- lines 142-144
      if standard ≠ "WBE" then (t1, .error .invalidStandard)
      else
        let t2 := t1 ++ [.fblockStandard "WBE"]
        -- lines 147-148: tx_mode = f"EHT{bw_value[2:]}"
        let tx_mode := "EHT" ++ (bw_value.data.drop 2).asString
        let t3 := t2 ++ [.tmode tx_mode]
        -- lines 151-154
        match parse_mcs_index mcs with
        | none => (t3, .error .invalidMcs)
        | some mcs_index =>
          if ¬ mcs_index ∈ mcs_data_keys then (t3, .error .invalidMcs)
          else
            let t4 := t3 ++ [.mcsSet mcs]
            -- lines 157-166
            let symbol_duration := symbol_duration_calc dev.gi
            let bytes_per_symbol := dev.bits_per_symbol.fdiv 8
            let no_of_symbols_required := required_symbols burst_length dev.gi
            let no_of_bytes_required := no_of_symbols_required * bytes_per_symbol
            -- line 169: assert no_of_bytes_required > 100
            if ¬ 100 < no_of_bytes_required then (t4, .error .capacityError)
            else
              -- line 170
              let nb := no_of_bytes_required - 100
              -- lines 173-175
              let count := nb.fdiv dev.max_bytes_per_mpdu + 1
              let remainder := nb.fmod dev.max_bytes_per_mpdu
              -- lines 179-185
              let t5 := t4 ++ mpdu_cmds count remainder dev.max_bytes_per_mpdu
              -- lines 188-190
              let idle_time := idle_time_calc burst_length duty_cycle
              let t6 := t5 ++ [.itime idle_time]
              (t6, .ok
                { symbol_duration := symbol_duration
                  no_of_symbols_required := no_of_symbols_required
                  no_of_bytes_required := nb
                  no_of_mpdus_required := count
                  remainder := remainder
                  mpdu_lengths := mpdu_partition nb dev.max_bytes_per_mpdu
                  idle_time := idle_time })

/-- `RS_SMX.create_waveform`, outermost `try`/`except` (lines 124, 204,
206-208): any exception raised in the body is caught, logged and turned
into the return value `-1`; the success path returns `0`. -/
def create_waveform (standard bw mcs : String)
    (burst_length duty_cycle : ℚ) (dev : DevReplies) : ℤ :=
  match (create_waveform_run standard bw mcs burst_length duty_cycle dev).2 with
  | .ok _ => 0
  | .error _ => -1

/- ### GUI session close paths -/

/-- Joint state of the GUI, its FSW session and the peer SMW session.
`fswRef`: whether the GUI still holds its `self.fsw` reference;
`fswOpen`: whether the FSW VISA connection is open; `hasPeer` /
`smwOpen`: whether the FSW session holds a peer SMW session and whether
that peer's VISA connection is open; `ownsPeer`: whether the peer was
created internally by `RS_FSX_WLAN_AX_BE.__init__` from a supplied
`smw_resource_id` (owned) as opposed to being injected by the caller
(`self.fsw.smw = self.smw` in `smw_fsw_gui.py`, merely linked). -/
structure SessionWorld where
  fswRef : Bool
  fswOpen : Bool
  hasPeer : Bool
  smwOpen : Bool
  ownsPeer : Bool
deriving DecidableEq

/-- The methods defined on `RS_FSX_WLAN_AX_BE` (`RS_FSx_WLAN_AX_BE.py`):
the class defines no `close` and no `__del__`, so no code path can close
an owned peer session through it. -/
def RS_FSX_WLAN_AX_BE_methods : List String :=
  ["__init__", "write_command", "query_command", "opc_check",
   "FSW_preset", "FSW_autolevel", "setup_WLAN_app",
   "extract_settings_from_generator", "sync_with_smw"]

/-- `RS_FSX_GUI.close` (`RS_FSW_WLAN_GUI.py`, lines 165-177): if a
session reference is held, the code executes only `self.fsw = None`
(with a comment claiming "RS_FSX_WLAN_AX_BE handles SMW closure
internally"); no `close` is invoked on the FSW instrument or on the peer
SMW session, so neither connection state changes. -/
def gui_close (w : SessionWorld) : SessionWorld :=
  if w.fswRef then { w with fswRef := false } else w

/-- `CombinedSMWFSWGUI.on_closing` (`smw_fsw_gui.py`, lines 253-258),
restricted to the session state: `if self.smw: self.smw.close()` closes
the GUI-owned SMW session directly, then `self.fsw = None` drops the FSW
reference (again without invoking any close on the FSW session).  In this
GUI the FSW session never owns the peer: the SMW is always injected
(`smwHeldByGui` says the GUI itself holds the SMW it created). -/
def on_closing (smwHeldByGui : Bool) (w : SessionWorld) : SessionWorld :=
  let w1 := if smwHeldByGui then { w with smwOpen := false } else w
  { w1 with fswRef := false }

/- ### Helper lemmas: the polling loop -/

/-- If the completion bit is never set, the loop raises the timeout from
any start index. -/
lemma opcPollFrom_timeout (esr : ℕ → ℕ) (cmd : String)
    (h : ∀ n, esr n &&& 1 ≠ 1) (m : ℕ) :
    opcPollFrom esr cmd m = .error (.timeout cmd) := by
  have key : ∀ k m, 51 - m ≤ k → opcPollFrom esr cmd m = .error (.timeout cmd) := by
    intro k
    induction k with
    | zero =>
      intro m hm
      rw [opcPollFrom, if_neg (h m), if_pos (by omega)]
    | succ k ih =>
      intro m hm
      rw [opcPollFrom, if_neg (h m)]
      by_cases hc : 10000 < 200 * m
      · rw [if_pos hc]
      · rw [if_neg hc]
        exact ih (m + 1) (by omega)
  exact key 51 m (by omega)

/-- A successful exit from a start index within the deadline happens at a
poll index at most one interval past the deadline. -/
lemma opcPollFrom_ok_bound (esr : ℕ → ℕ) (cmd : String) :
    ∀ k m j, 51 - m ≤ k → m ≤ 51 → opcPollFrom esr cmd m = .ok j →
      m ≤ j ∧ j ≤ 51 := by
  intro k
  induction k with
  | zero =>
    intro m j hm hm51 hj
    rw [opcPollFrom] at hj
    by_cases hb : esr m &&& 1 = 1
    · rw [if_pos hb] at hj
      cases hj
      omega
    · rw [if_neg hb, if_pos (by omega)] at hj
      cases hj
  | succ k ih =>
    intro m j hm hm51 hj
    rw [opcPollFrom] at hj
    by_cases hb : esr m &&& 1 = 1
    · rw [if_pos hb] at hj
      cases hj
      omega
    · rw [if_neg hb] at hj
      by_cases hc : 10000 < 200 * m
      · rw [if_pos hc] at hj
        cases hj
      · rw [if_neg hc] at hj
        have := ih (m + 1) j (by omega) (by omega) hj
        omega

/-- If the completion bit is set at some poll `n` within the deadline,
the loop started at any `m ≤ n` succeeds at some poll index `≤ n`. -/
lemma opcPollFrom_ok_of_set (esr : ℕ → ℕ) (cmd : String) (n : ℕ)
    (hn : 200 * n ≤ 10000) (hbit : esr n &&& 1 = 1) :
    ∀ k m, n - m ≤ k → m ≤ n → ∃ j, j ≤ n ∧ opcPollFrom esr cmd m = .ok j := by
  intro k
  induction k with
  | zero =>
    intro m hm hmn
    have hmn' : m = n := by omega
    subst hmn'
    exact ⟨m, le_refl m, by rw [opcPollFrom, if_pos hbit]⟩
  | succ k ih =>
    intro m hm hmn
    by_cases hb : esr m &&& 1 = 1
    · exact ⟨m, hmn, by rw [opcPollFrom, if_pos hb]⟩
    · have hmltn : m < n := by
        rcases Nat.lt_or_ge m n with h' | h'
        · exact h'
        · exfalso
          have : m = n := by omega
          exact hb (this ▸ hbit)
      have hc : ¬ 10000 < 200 * m := by omega
      obtain ⟨j, hjn, hj⟩ := ih (m + 1) (by omega) (by omega)
      exact ⟨j, hjn, by rw [opcPollFrom, if_neg hb, if_neg hc, hj]⟩

/-- C1: completion-synchronized execution.  If the completion bit (bit 0
of the `*ESR?` reply) is set at some poll within the 10 s deadline (polls
are 0.2 s apart, so poll `n` happens at `200 * n` ms), `write_command`
returns successfully, at a poll that is itself within the deadline; if
the bit is never set, it raises `OperationTimeout` carrying the original
command; any successful exit happens by poll index 51, i.e. the loop
never keeps polling past the first poll after the 10 s deadline; and the
legacy `opc_check` has exactly the same polling behaviour. -/
theorem opc_completion_poll_spec (esr : ℕ → ℕ) (cmd : String) :
    ((∃ n, 200 * n ≤ 10000 ∧ esr n &&& 1 = 1) →
      ∃ j, 200 * j ≤ 10000 ∧ write_command esr cmd = .ok j) ∧
    ((∀ n, esr n &&& 1 ≠ 1) →
      write_command esr cmd = .error (.timeout cmd)) ∧
    (∀ j, write_command esr cmd = .ok j → 200 * j ≤ 10200) ∧
    opc_check esr cmd = write_command esr cmd := by
  refine ⟨?_, ?_, ?_, rfl⟩
  · rintro ⟨n, hn, hbit⟩
    obtain ⟨j, hjn, hj⟩ :=
      opcPollFrom_ok_of_set esr cmd n hn hbit n 0 (by omega) (by omega)
    exact ⟨j, by omega, hj⟩
  · intro h
    exact opcPollFrom_timeout esr cmd h 0
  · intro j hj
    have := opcPollFrom_ok_bound esr cmd 51 0 j (by omega) (by omega) hj
    omega

/-- C1 witness: a device whose completion bit first sets at poll 3
(i.e. after 3 poll intervals of 0.2 s) makes `write_command` succeed
within the deadline; a device whose bit never sets makes it raise the
timeout naming the command. -/
theorem opc_completion_poll_witness :
    (∃ j, 200 * j ≤ 10000 ∧
      write_command (fun n => if 3 ≤ n then 1 else 0) "*RST" = .ok j) ∧
    write_command (fun _ => 0) "*RST" = .error (.timeout "*RST") :=
  ⟨(opc_completion_poll_spec (fun n => if 3 ≤ n then 1 else 0) "*RST").1
      ⟨3, by norm_num⟩,
   (opc_completion_poll_spec (fun _ => 0) "*RST").2.1 (fun n => by decide)⟩

/- ### Receive-side capture time: claim C3 -/

/-- C3: the applied capture time is `min(4 * (frame_duration +
idle_time), 1 s)` (durations reported in ms, converted to seconds at the
boundary); the warning flag fires exactly when the raw value exceeds the
1 s ceiling and the operation still produces a value; 10 ms + 10 ms
yields 80 ms uncapped, and 200 ms + 100 ms yields the capped 1000 ms
with the warning flagged. -/
theorem capture_time_cap_spec (fd_ms it_ms : ℚ) :
    (setup_WLAN_capture_time fd_ms it_ms).1 =
      min (4 * (fd_ms / 1000 + it_ms / 1000)) 1 ∧
    ((setup_WLAN_capture_time fd_ms it_ms).2 = true ↔
      1 < 4 * (fd_ms / 1000 + it_ms / 1000)) ∧
    setup_WLAN_capture_time 10 10 = (80 / 1000, false) ∧
    setup_WLAN_capture_time 200 100 = (1, true) := by
  refine ⟨?_, ?_, ?_, ?_⟩
  · simp only [setup_WLAN_capture_time]
    split_ifs with h
    · rw [min_eq_right (le_of_lt h)]
    · rw [min_eq_left (not_lt.mp h)]
  · simp only [setup_WLAN_capture_time]
    split_ifs with h
    · simpa using h
    · simpa using not_lt.mp h
  · simp only [setup_WLAN_capture_time]
    rw [if_neg (by norm_num)]
    norm_num
  · simp only [setup_WLAN_capture_time]
    rw [if_pos (by norm_num)]

/- ### Transmit-side planner: claims C4, C5, C6, C7, C10 -/

/-- A run with an out-of-domain duty cycle raises the duty-cycle
`ValueError` before writing anything. -/
lemma create_waveform_run_badDuty (standard bw mcs : String)
    (burst duty : ℚ) (dev : DevReplies) (h : ¬(0 < duty ∧ duty ≤ 1)) :
    create_waveform_run standard bw mcs burst duty dev =
      ([], .error .invalidDutyCycle) := by
  rw [create_waveform_run, if_pos h]

/-- Forward evaluation of the success path: when every validation
passes, the run returns the canonical plan. -/
lemma create_waveform_run_ok (standard bw mcs : String) (burst duty : ℚ)
    (dev : DevReplies) (h1 : 0 < duty) (h2 : duty ≤ 1)
    (hbw : pyUpper bw ∈ valid_bandwidths) (hs : standard = "WBE")
    {i : ℤ} (hm : parse_mcs_index mcs = some i) (hk : i ∈ mcs_data_keys)
    (hcap : 100 < required_symbols burst dev.gi * dev.bits_per_symbol.fdiv 8) :
    (create_waveform_run standard bw mcs burst duty dev).2 =
      .ok { symbol_duration := symbol_duration_calc dev.gi
            no_of_symbols_required := required_symbols burst dev.gi
            no_of_bytes_required :=
              required_symbols burst dev.gi * dev.bits_per_symbol.fdiv 8 - 100
            no_of_mpdus_required :=
              (required_symbols burst dev.gi * dev.bits_per_symbol.fdiv 8
                - 100).fdiv dev.max_bytes_per_mpdu + 1
            remainder :=
              (required_symbols burst dev.gi * dev.bits_per_symbol.fdiv 8
                - 100).fmod dev.max_bytes_per_mpdu
            mpdu_lengths :=
              mpdu_partition
                (required_symbols burst dev.gi * dev.bits_per_symbol.fdiv 8
                  - 100) dev.max_bytes_per_mpdu
            idle_time := idle_time_calc burst duty } := by
  simp only [create_waveform_run]
  rw [if_neg (not_not_intro ⟨h1, h2⟩), if_neg (not_not_intro hbw),
    if_neg (not_not_intro hs)]
  simp only [hm]
  rw [if_neg (not_not_intro hk), if_neg (not_not_intro hcap)]

/-- Forward evaluation of the capacity-failure path: when every earlier
validation passes but the margin check fails, the run raises
`CapacityError` with only the pre-MPDU directives written. -/
lemma create_waveform_run_capacity (standard bw mcs : String)
    (burst duty : ℚ) (dev : DevReplies) (h1 : 0 < duty) (h2 : duty ≤ 1)
    (hbw : pyUpper bw ∈ valid_bandwidths) (hs : standard = "WBE")
    {i : ℤ} (hm : parse_mcs_index mcs = some i) (hk : i ∈ mcs_data_keys)
    (hcap : required_symbols burst dev.gi * dev.bits_per_symbol.fdiv 8 ≤ 100) :
    create_waveform_run standard bw mcs burst duty dev =
      ([Cmd.wlnnState false, Cmd.wlnnPreset, Cmd.bwidth (pyUpper bw),
        Cmd.fblockStandard "WBE",
        Cmd.tmode ("EHT" ++ ((pyUpper bw).data.drop 2).asString),
        Cmd.mcsSet mcs],
       .error .capacityError) := by
  simp only [create_waveform_run]
  rw [if_neg (not_not_intro ⟨h1, h2⟩), if_neg (not_not_intro hbw),
    if_neg (not_not_intro hs)]
  simp only [hm]
  rw [if_neg (not_not_intro hk), if_pos (not_lt.mpr hcap)]
  simp

/-- Inverse direction: any successful run carries the canonical derived
quantities and implies the validations passed. -/
lemma create_waveform_run_ok_inv (standard bw mcs : String)
    (burst duty : ℚ) (dev : DevReplies) (p : WvPlan)
    (hp : (create_waveform_run standard bw mcs burst duty dev).2 = .ok p) :
    p.idle_time = idle_time_calc burst duty ∧
    p.symbol_duration = symbol_duration_calc dev.gi ∧
    p.no_of_symbols_required = required_symbols burst dev.gi ∧
    p.no_of_bytes_required =
      required_symbols burst dev.gi * dev.bits_per_symbol.fdiv 8 - 100 ∧
    p.mpdu_lengths = mpdu_partition p.no_of_bytes_required dev.max_bytes_per_mpdu ∧
    0 < duty ∧ duty ≤ 1 ∧
    100 < required_symbols burst dev.gi * dev.bits_per_symbol.fdiv 8 := by
  simp only [create_waveform_run] at hp
  by_cases h1 : ¬(0 < duty ∧ duty ≤ 1)
  · rw [if_pos h1] at hp
    simp at hp
  rw [if_neg h1] at hp
  by_cases h2 : ¬ pyUpper bw ∈ valid_bandwidths
  · rw [if_pos h2] at hp
    simp at hp
  rw [if_neg h2] at hp
  by_cases h3 : standard ≠ "WBE"
  · rw [if_pos h3] at hp
    simp at hp
  rw [if_neg h3] at hp
  rcases hmcs : parse_mcs_index mcs with _ | i <;> simp only [hmcs] at hp
  · simp at hp
  by_cases h4 : ¬ i ∈ mcs_data_keys
  · rw [if_pos h4] at hp
    simp at hp
  rw [if_neg h4] at hp
  by_cases h5 : ¬ 100 < required_symbols burst dev.gi * dev.bits_per_symbol.fdiv 8
  · rw [if_pos h5] at hp
    simp at hp
  rw [if_neg h5] at hp
  simp only [Prod.snd, Except.ok.injEq] at hp
  push_neg at h1 h5
  subst hp
  exact ⟨rfl, rfl, rfl, rfl, rfl, h1.1, h1.2, h5⟩

/-- C4: for every duty cycle in (0, 1] the planner computes
`idle_time = burst_length * (1 / duty_cycle - 1)`, which is nonnegative
(for a nonnegative burst length), and every successful run carries
exactly that idle time; for a duty cycle outside (0, 1] the run raises
the duty-cycle `ValueError` (the spec's `InvalidParameter`). -/
theorem duty_cycle_spec (standard bw mcs : String) (burst duty : ℚ)
    (dev : DevReplies) :
    (¬(0 < duty ∧ duty ≤ 1) →
      (create_waveform_run standard bw mcs burst duty dev).2 =
        .error .invalidDutyCycle) ∧
    (0 < duty → duty ≤ 1 →
      idle_time_calc burst duty = burst * (1 / duty - 1) ∧
      (0 ≤ burst → 0 ≤ idle_time_calc burst duty)) ∧
    (∀ p, (create_waveform_run standard bw mcs burst duty dev).2 = .ok p →
      p.idle_time = idle_time_calc burst duty) := by
  refine ⟨?_, ?_, ?_⟩
  · intro h
    rw [create_waveform_run_badDuty standard bw mcs burst duty dev h]
  · intro h1 h2
    constructor
    · rw [idle_time_calc]
      ring
    · intro hb
      have h3 : 1 ≤ 1 / duty := one_le_one_div h1 h2
      have h4 : burst * 1 ≤ burst * (1 / duty) :=
        mul_le_mul_of_nonneg_left h3 hb
      rw [idle_time_calc]
      linarith
  · intro p hp
    exact (create_waveform_run_ok_inv standard bw mcs burst duty dev p hp).1

/-- C4 witness: duty cycle 2 raises the duty-cycle error; duty cycle 1/2
gives the formula value and a nonnegative idle time. -/
theorem duty_cycle_spec_witness :
    (create_waveform_run "WBE" "BW320" "MCS13" (4 / 1000) 2
        ⟨"GD08", 2048, 60000⟩).2 = .error .invalidDutyCycle ∧
    idle_time_calc (4 / 1000) (1 / 2) = (4 / 1000) * (1 / (1 / 2) - 1) ∧
    0 ≤ idle_time_calc (4 / 1000) (1 / 2) := by
  refine ⟨?_, ?_, ?_⟩
  · exact (duty_cycle_spec "WBE" "BW320" "MCS13" (4 / 1000) 2
      ⟨"GD08", 2048, 60000⟩).1 (by norm_num)
  · exact ((duty_cycle_spec "WBE" "BW320" "MCS13" (4 / 1000) (1 / 2)
      ⟨"GD08", 2048, 60000⟩).2.1 (by norm_num) (by norm_num)).1
  · exact ((duty_cycle_spec "WBE" "BW320" "MCS13" (4 / 1000) (1 / 2)
      ⟨"GD08", 2048, 60000⟩).2.1 (by norm_num) (by norm_num)).2 (by norm_num)

/- ### Byte partition: claim C2 -/

/-- For positive inputs the emitted length list is `fdiv`-many maximal
units followed by the floor remainder. -/
lemma mpdu_partition_eq (B M : ℤ) (hB : 0 < B) (hM : 0 < M) :
    mpdu_partition B M =
      List.replicate (B.fdiv M).toNat M ++ [B.fmod M] := by
  have hq : 0 ≤ B.fdiv M := Int.fdiv_nonneg hB.le hM.le
  have hn : (B.fdiv M + 1).toNat = (B.fdiv M).toNat + 1 := by omega
  simp only [mpdu_partition, hn, Nat.add_sub_cancel]
  rw [List.range_succ, List.map_append]
  congr 1
  · refine List.eq_replicate.mpr ⟨by simp, ?_⟩
    intro b hb
    simp only [List.mem_map, List.mem_range] at hb
    obtain ⟨j, hj, rfl⟩ := hb
    exact if_neg (Nat.ne_of_lt hj)
  · simp

/-- C2 counterexample: at `required_bytes = 120000`,
`max_unit_size = 60000` (an exact multiple) the code emits the three
lengths `[60000, 60000, 0]`, while the claim requires
`ceil(120000 / 60000) = 2` units all of positive length. -/
theorem byte_partition_counterexample :
    mpdu_partition 120000 60000 = [60000, 60000, 0] ∧
    ⌈(120000 : ℚ) / 60000⌉ = 2 ∧
    ¬((mpdu_partition 120000 60000).length = 2 ∧
      ∀ len ∈ mpdu_partition 120000 60000, 1 ≤ len) := by
  refine ⟨by decide, ?_, by decide⟩
  rw [show (120000 : ℚ) / 60000 = ((2 : ℤ) : ℚ) by norm_num]
  exact Int.ceil_intCast 2

/-- C2 amended: for positive `required_bytes` and `max_unit_size` the
lengths sum to `required_bytes`, the unit count is
`floor(required_bytes / max_unit_size) + 1`, all units except the last
equal `max_unit_size`, and the last is the floor remainder, in
`[0, max_unit_size)`; when `required_bytes` is not an exact multiple
this agrees with the claim (count equals the ceiling and the last unit
is in `[1, max_unit_size]`), but at an exact multiple one extra
zero-length unit is emitted. -/
theorem byte_partition_amended (B M : ℤ) (hB : 0 < B) (hM : 0 < M) :
    (mpdu_partition B M).sum = B ∧
    (mpdu_partition B M).length = (B.fdiv M).toNat + 1 ∧
    (mpdu_partition B M).getLast? = some (B.fmod M) ∧
    (∀ len ∈ (mpdu_partition B M).dropLast, len = M) ∧
    0 ≤ B.fmod M ∧ B.fmod M < M ∧
    (¬ M ∣ B →
      ((mpdu_partition B M).length : ℤ) = ⌈(B : ℚ) / (M : ℚ)⌉ ∧
      1 ≤ B.fmod M) := by
  have hrep := mpdu_partition_eq B M hB hM
  have hid := Int.fmod_add_fdiv B M
  have hq : 0 ≤ B.fdiv M := Int.fdiv_nonneg hB.le hM.le
  have hr0 : 0 ≤ B.fmod M := by
    rw [Int.fmod_eq_emod B hM.le]
    exact Int.emod_nonneg B (ne_of_gt hM)
  have hrM : B.fmod M < M := by
    rw [Int.fmod_eq_emod B hM.le]
    exact Int.emod_lt_of_pos B hM
  refine ⟨?_, ?_, ?_, ?_, hr0, hrM, ?_⟩
  · rw [hrep]
    simp only [List.sum_append, List.sum_replicate, List.sum_cons,
      List.sum_nil, nsmul_eq_mul, Int.toNat_of_nonneg hq, add_zero]
    linarith
  · rw [hrep]
    simp
  · rw [hrep, List.getLast?_concat]
  · rw [hrep, List.dropLast_concat]
    intro len hlen
    exact List.eq_of_mem_replicate hlen
  · intro hdvd
    have hr1 : 1 ≤ B.fmod M := by
      rcases eq_or_lt_of_le hr0 with h0 | h0
      · exfalso
        apply hdvd
        apply Int.dvd_of_emod_eq_zero
        rw [← Int.fmod_eq_emod B hM.le, ← h0]
      · omega
    refine ⟨?_, hr1⟩
    have hlen : (((mpdu_partition B M).length : ℕ) : ℤ) = B.fdiv M + 1 := by
      rw [hrep]
      simp [Int.toNat_of_nonneg hq]
    rw [hlen]
    have hMQ : (0 : ℚ) < (M : ℚ) := by exact_mod_cast hM
    have hidQ : ((B.fmod M : ℤ) : ℚ) + (M : ℚ) * ((B.fdiv M : ℤ) : ℚ) = (B : ℚ) := by
      exact_mod_cast hid
    have hr1Q : (1 : ℚ) ≤ ((B.fmod M : ℤ) : ℚ) := by exact_mod_cast hr1
    have hrMQ : ((B.fmod M : ℤ) : ℚ) < (M : ℚ) := by exact_mod_cast hrM
    symm
    rw [Int.ceil_eq_iff]
    constructor
    · rw [lt_div_iff hMQ]
      push_cast
      nlinarith
    · rw [div_le_iff hMQ]
      push_cast
      nlinarith

/-- C2 witness: the amended invariant holds at the non-multiple instance
74396 bytes with 60000-byte units. -/
theorem byte_partition_amended_witness :
    (0 : ℤ) < 74396 ∧ (0 : ℤ) < 60000 ∧
    (mpdu_partition 74396 60000).sum = 74396 := by
  refine ⟨by norm_num, by norm_num, ?_⟩
  exact (byte_partition_amended 74396 60000 (by norm_num) (by norm_num)).1

/- ### Guard interval: claim C5 -/

/-- Concrete evaluation of the symbol count for a 4 ms burst under a
0.8 µs guard interval: `round((0.004 - 0.0000432) / 0.0000136) =
round(4946/17) = 291`. -/
lemma required_symbols_4ms (gi : String) (h : gi_value gi = 8 / 10 ^ 7) :
    required_symbols (4 / 1000) gi = 291 := by
  rw [required_symbols]
  have harg : ((4 : ℚ) / 1000 - header_duration) / symbol_duration_calc gi
      = 4946 / 17 := by
    rw [symbol_duration_calc, h, header_duration]
    norm_num
  rw [harg, pythonRound]
  have hf : ⌊(4946 : ℚ) / 17⌋ = 290 := by norm_num [Int.floor_eq_iff]
  rw [hf, if_neg (by norm_num), if_pos (by norm_num)]
  norm_num

/-- C5 counterexample: the unknown guard-interval reply `"GD99"` is not
in the enumerated set, yet the planner neither raises nor rejects it: it
silently substitutes the 0.8 µs default, computes the 13.6 µs symbol
duration, and the whole run still succeeds. -/
theorem guard_interval_counterexample :
    ("GD99" ∉ (["GD08", "GD16", "GD32"] : List String)) ∧
    gi_value "GD99" = 8 / 10 ^ 7 ∧
    symbol_duration_calc "GD99" = 136 / 10 ^ 7 ∧
    ∃ p, (create_waveform_run "WBE" "BW320" "MCS13" (4 / 1000) (1 / 2)
        ⟨"GD99", 2048, 60000⟩).2 = .ok p := by
  have hg : gi_value "GD99" = 8 / 10 ^ 7 := by
    rw [gi_value, if_neg (by decide), if_neg (by decide), if_neg (by decide)]
  refine ⟨by decide, hg, ?_, ?_⟩
  · rw [symbol_duration_calc, hg]
    norm_num
  · refine ⟨_, create_waveform_run_ok "WBE" "BW320" "MCS13" (4 / 1000)
      (1 / 2) ⟨"GD99", 2048, 60000⟩ (by norm_num) (by norm_num) (by decide)
      rfl (show parse_mcs_index "MCS13" = some 13 by decide) (by decide) ?_⟩
    show 100 < required_symbols (4 / 1000) "GD99" * ((2048 : ℤ).fdiv 8)
    rw [required_symbols_4ms _ hg]
    decide

/-- C5 amended: `symbol_duration = 12.8 µs + gi_value`, with
`gi_value = 0.8 / 1.6 / 3.2 µs` on the three enumerated replies; any
reply outside the set is silently mapped to the 0.8 µs default (the
planner never raises on the guard interval). -/
theorem guard_interval_amended (gi : String) :
    symbol_duration_calc gi = 128 / 10 ^ 7 + gi_value gi ∧
    (gi = "GD08" → symbol_duration_calc gi = 136 / 10 ^ 7) ∧
    (gi = "GD16" → symbol_duration_calc gi = 144 / 10 ^ 7) ∧
    (gi = "GD32" → symbol_duration_calc gi = 160 / 10 ^ 7) ∧
    (gi ∉ (["GD08", "GD16", "GD32"] : List String) →
      gi_value gi = 8 / 10 ^ 7 ∧ symbol_duration_calc gi = 136 / 10 ^ 7) := by
  refine ⟨rfl, ?_, ?_, ?_, ?_⟩
  · rintro rfl
    rw [symbol_duration_calc, gi_value, if_pos rfl]
    norm_num
  · rintro rfl
    rw [symbol_duration_calc, gi_value, if_neg (by decide), if_pos rfl]
    norm_num
  · rintro rfl
    rw [symbol_duration_calc, gi_value, if_neg (by decide),
      if_neg (by decide), if_pos rfl]
    norm_num
  · intro h
    simp only [List.mem_cons, List.not_mem_nil, or_false, not_or] at h
    obtain ⟨h1, h2, h3⟩ := h
    have hg : gi_value gi = 8 / 10 ^ 7 := by
      rw [gi_value, if_neg h1, if_neg h2, if_neg h3]
    refine ⟨hg, ?_⟩
    rw [symbol_duration_calc, hg]
    norm_num

/-- C5 witness: the amended statement evaluated at the unknown reply
`"GD99"` and at the enumerated reply `"GD08"`. -/
theorem guard_interval_amended_witness :
    gi_value "GD99" = 8 / 10 ^ 7 ∧
    symbol_duration_calc "GD99" = 136 / 10 ^ 7 ∧
    symbol_duration_calc "GD08" = 136 / 10 ^ 7 := by
  obtain ⟨hg, hs⟩ := (guard_interval_amended "GD99").2.2.2.2 (by decide)
  exact ⟨hg, hs, (guard_interval_amended "GD08").2.1 rfl⟩

/- ### Capacity margin: claim C6 -/

/-- C6: in a run that reaches the capacity computation (all earlier
validations pass), `required_bytes` is `required_symbols *
bytes_per_symbol` minus the fixed 100-byte margin; when
`required_symbols * bytes_per_symbol ≤ 100` the run raises
`CapacityError` and the directives written so far include no data-unit
(MPDU) directive; otherwise the run succeeds with
`required_bytes > 0`. -/
theorem capacity_margin_spec (standard bw mcs : String) (burst duty : ℚ)
    (dev : DevReplies) (h1 : 0 < duty) (h2 : duty ≤ 1)
    (hbw : pyUpper bw ∈ valid_bandwidths) (hs : standard = "WBE")
    {i : ℤ} (hm : parse_mcs_index mcs = some i) (hk : i ∈ mcs_data_keys) :
    (required_symbols burst dev.gi * dev.bits_per_symbol.fdiv 8 ≤ 100 →
      (create_waveform_run standard bw mcs burst duty dev).2 =
        .error .capacityError ∧
      ∀ c ∈ (create_waveform_run standard bw mcs burst duty dev).1,
        c.isDataUnitDirective = false) ∧
    (100 < required_symbols burst dev.gi * dev.bits_per_symbol.fdiv 8 →
      ∃ p, (create_waveform_run standard bw mcs burst duty dev).2 = .ok p ∧
        p.no_of_bytes_required =
          required_symbols burst dev.gi * dev.bits_per_symbol.fdiv 8 - 100 ∧
        0 < p.no_of_bytes_required) := by
  constructor
  · intro hcap
    rw [create_waveform_run_capacity standard bw mcs burst duty dev
      h1 h2 hbw hs hm hk hcap]
    refine ⟨rfl, ?_⟩
    intro c hc
    simp only [List.mem_cons, List.not_mem_nil, or_false] at hc
    rcases hc with rfl | rfl | rfl | rfl | rfl | rfl <;> rfl
  · intro hcap
    refine ⟨_, create_waveform_run_ok standard bw mcs burst duty dev
      h1 h2 hbw hs hm hk hcap, rfl, ?_⟩
    show 0 < required_symbols burst dev.gi * dev.bits_per_symbol.fdiv 8 - 100
    omega

/-- Concrete evaluation of the symbol count for a 0.1 ms burst under a
0.8 µs guard interval: `round(568/136) = round(71/17) = 4`. -/
lemma required_symbols_tiny :
    required_symbols (1 / 10000) "GD08" = 4 := by
  rw [required_symbols]
  have harg : ((1 : ℚ) / 10000 - header_duration) / symbol_duration_calc "GD08"
      = 71 / 17 := by
    rw [symbol_duration_calc, gi_value, if_pos rfl, header_duration]
    norm_num
  rw [harg, pythonRound]
  have hf : ⌊(71 : ℚ) / 17⌋ = 4 := by norm_num [Int.floor_eq_iff]
  rw [hf, if_pos (by norm_num)]

/-- C6 witness: a 0.1 ms burst with an 8-bit symbol reply yields
`4 * 1 = 4 ≤ 100` derived bytes, so the run raises `CapacityError`. -/
theorem capacity_margin_spec_witness :
    (create_waveform_run "WBE" "BW320" "MCS13" (1 / 10000) (1 / 2)
        ⟨"GD08", 8, 60000⟩).2 = .error .capacityError := by
  refine ((capacity_margin_spec "WBE" "BW320" "MCS13" (1 / 10000) (1 / 2)
    ⟨"GD08", 8, 60000⟩ (by norm_num) (by norm_num) (by decide) rfl
    (show parse_mcs_index "MCS13" = some 13 by decide) (by decide)).1 ?_).1
  show required_symbols (1 / 10000) "GD08" * ((8 : ℤ).fdiv 8) ≤ 100
  rw [required_symbols_tiny]
  decide

/- ### End-to-end instance: claim C7 -/

/-- C7: the end-to-end transmit planning instance: a 4 ms burst at duty
cycle 1/2 with 2048 bits (256 bytes) per symbol, 43.2 µs header and
0.8 µs guard interval gives symbol duration 13.6 µs, 291 required
symbols, 291 * 256 - 100 = 74396 required bytes, and with 60000-byte
units exactly 2 MPDUs of lengths [60000, 14396]; the idle time equals
the 4 ms burst. -/
theorem end_to_end_instance :
    (create_waveform_run "WBE" "BW320" "MCS13" (4 / 1000) (1 / 2)
        ⟨"GD08", 2048, 60000⟩).2 =
      .ok { symbol_duration := 136 / 10 ^ 7
            no_of_symbols_required := 291
            no_of_bytes_required := 74396
            no_of_mpdus_required := 2
            remainder := 14396
            mpdu_lengths := [60000, 14396]
            idle_time := 4 / 1000 } := by
  have hg : gi_value "GD08" = 8 / 10 ^ 7 := by rw [gi_value, if_pos rfl]
  have hsym : required_symbols (4 / 1000) "GD08" = 291 :=
    required_symbols_4ms _ hg
  have hrun := create_waveform_run_ok "WBE" "BW320" "MCS13" (4 / 1000)
    (1 / 2) ⟨"GD08", 2048, 60000⟩ (by norm_num) (by norm_num) (by decide)
    rfl (show parse_mcs_index "MCS13" = some 13 by decide) (by decide)
    (by show 100 < required_symbols (4 / 1000) "GD08" * ((2048 : ℤ).fdiv 8)
        rw [hsym]
        decide)
  rw [hrun]
  simp only [Except.ok.injEq, WvPlan.mk.injEq]
  refine ⟨?_, ?_, ?_, ?_, ?_, ?_, ?_⟩
  · show symbol_duration_calc "GD08" = 136 / 10 ^ 7
    rw [symbol_duration_calc, hg]
    norm_num
  · exact hsym
  · show required_symbols (4 / 1000) "GD08" * ((2048 : ℤ).fdiv 8) - 100
      = 74396
    rw [hsym]
    decide
  · show (required_symbols (4 / 1000) "GD08" * ((2048 : ℤ).fdiv 8)
      - 100).fdiv 60000 + 1 = 2
    rw [hsym]
    decide
  · show (required_symbols (4 / 1000) "GD08" * ((2048 : ℤ).fdiv 8)
      - 100).fmod 60000 = 14396
    rw [hsym]
    decide
  · show mpdu_partition (required_symbols (4 / 1000) "GD08" *
      ((2048 : ℤ).fdiv 8) - 100) 60000 = [60000, 14396]
    rw [hsym]
    decide
  · show idle_time_calc (4 / 1000) (1 / 2) = 4 / 1000
    rw [idle_time_calc]
    norm_num

/- ### Standard translator: claim C8 -/

/-- A lookup over an association list with no matching key yields
`none`. -/
lemma lookup_eq_none_of_forall {β : Type} (k : String)
    (l : List (String × β)) (h : ∀ e ∈ l, e.1 ≠ k) :
    List.lookup k l = none := by
  induction l with
  | nil => rfl
  | cons a t ih =>
    obtain ⟨a1, a2⟩ := a
    have hne : (k == a1) = false :=
      beq_eq_false_iff_ne.mpr (Ne.symm (h (a1, a2) (List.mem_cons_self _ _)))
    simp only [List.lookup_cons, hne]
    exact ih (fun e he => h e (List.mem_cons_of_mem _ he))

/-- C8: for every identifier whose uppercase form matches an entry of
the fixed standards map, `to_fsw_command` returns that entry's directive
and `to_description` its description; for every identifier whose
uppercase form matches no entry, both return the defined defaults — and
being total functions they never fail. -/
theorem standard_translation_spec (s : String) :
    (∀ e ∈ STANDARD_MAP, e.1 = pyUpper s →
      to_fsw_command s = e.2.2.2 ∧ to_description s = e.2.2.1) ∧
    ((∀ e ∈ STANDARD_MAP, e.1 ≠ pyUpper s) →
      to_fsw_command s = ":CONF:STAN 11" ∧
      to_description s = "IEEE 802.11be (default)") := by
  constructor
  · intro e he heq
    fin_cases he <;>
      exact ⟨by simp only [to_fsw_command]; rw [← heq]; decide,
             by simp only [to_description]; rw [← heq]; decide⟩
  · intro h
    have hnone : List.lookup (pyUpper s) STANDARD_MAP = none :=
      lookup_eq_none_of_forall _ _ h
    exact ⟨by simp only [to_fsw_command, hnone],
           by simp only [to_description, hnone]⟩

/-- C8 witness: the lowercase identifier `"wax"` resolves
case-insensitively to the 802.11ax entry. -/
theorem standard_translation_spec_witness :
    to_fsw_command "wax" = ":CONF:STAN 10" ∧
    to_description "wax" = "IEEE 802.11ax" :=
  (standard_translation_spec "wax").1
    ("WAX", (10, "IEEE 802.11ax", ":CONF:STAN 10")) (by decide) (by decide)

/- ### Session close: claim C9 -/

/-- C9 (code-bug evidence): with an owned, open peer, the GUI `close`
merely drops the session reference: the peer SMW connection stays open
(first conjunct), even though the reference is gone (second), because
`RS_FSX_WLAN_AX_BE` defines no `close` at all (fourth) — contradicting
the source comment "RS_FSX_WLAN_AX_BE handles SMW closure internally".
A merely linked peer is likewise untouched (third), and the combined
GUI's `on_closing` only closes the SMW it holds directly (fifth). -/
theorem close_owned_peer_bug :
    (gui_close ⟨true, true, true, true, true⟩).smwOpen = true ∧
    (gui_close ⟨true, true, true, true, true⟩).fswRef = false ∧
    (gui_close ⟨true, true, true, true, false⟩).smwOpen = true ∧
    "close" ∉ RS_FSX_WLAN_AX_BE_methods ∧
    (on_closing true ⟨true, true, true, true, false⟩).smwOpen = false := by
  decide

/- ### Return code: claim C10 -/

/-- C10: `create_waveform` always returns 0 or -1: every internal
exception of the body is converted to -1 and every successful body run
to 0, so no typed error propagates to the caller. -/
theorem return_code_spec (standard bw mcs : String) (burst duty : ℚ)
    (dev : DevReplies) :
    (create_waveform standard bw mcs burst duty dev = 0 ∨
      create_waveform standard bw mcs burst duty dev = -1) ∧
    (∀ e, (create_waveform_run standard bw mcs burst duty dev).2 =
        .error e →
      create_waveform standard bw mcs burst duty dev = -1) ∧
    (∀ p, (create_waveform_run standard bw mcs burst duty dev).2 = .ok p →
      create_waveform standard bw mcs burst duty dev = 0) := by
  refine ⟨?_, ?_, ?_⟩
  · rcases hres : (create_waveform_run standard bw mcs burst duty dev).2
      with e | p
    · right
      simp [create_waveform, hres]
    · left
      simp [create_waveform, hres]
  · intro e he
    simp [create_waveform, he]
  · intro p hp
    simp [create_waveform, hp]

/-- C10 witness: the duty-cycle `ValueError` raised inside the body is
converted to the -1 return value. -/
theorem return_code_spec_witness :
    create_waveform "WBE" "BW320" "MCS13" (4 / 1000) 2
      ⟨"GD08", 2048, 60000⟩ = -1 := by
  apply (return_code_spec "WBE" "BW320" "MCS13" (4 / 1000) 2
    ⟨"GD08", 2048, 60000⟩).2.1 WvErr.invalidDutyCycle
  rw [create_waveform_run_badDuty "WBE" "BW320" "MCS13" (4 / 1000) 2
    ⟨"GD08", 2048, 60000⟩ (by norm_num)]
